import Mathlib

/-!
Shallow embedding of the certifier sample application
(src/sample_apps/simple_app_under_islet/islet_example_app.cc) and of the
measurement utility (src/utilities/measurement_init.cc).

External collaborators (the cc_trust_manager lifecycle calls, the secure
channel, the file system) are modelled as oracles: a record of booleans and
values giving the outcome each external call would return.  The embedded
functions return the process exit code together with a trace of the external
calls made, in order, so that claims about which calls happen, and in which
order, become statements about the trace.
-/

namespace IsletApp

/-- One observable external call made by the islet example app. -/
inductive Event where
  | initPolicyKey
  | initializeEnclave
  | coldInit
  | warmRestart
  | certifyMe
  /-- reading cc_auth_key_initialized_ and cc_policy_info_initialized_ -/
  | checkInitFlags
  /-- reading primary_admissions_cert_valid_ -/
  | checkAdmissions
  /-- channel.init_client_ssl(...) : the client-side channel open -/
  | initClientSsl
  /-- server_dispatch(...) : the server-side listen/accept loop -/
  | serverDispatch
  | chanWrite (msg : String)
  | chanRead
  | chanClose
  | clearSensitiveData
  deriving DecidableEq, Repr

/-- Oracle for the outcomes of the cc_trust_manager and channel calls made by
main.  The three cc_ flags are the values the trust manager exposes after
warm_restart has run. -/
structure TrustEnv where
  trust_mgr_alloc_ok : Bool
  init_policy_key_ok : Bool
  initialize_enclave_ok : Bool
  cold_init_ok : Bool
  warm_restart_ok : Bool
  certify_me_ok : Bool
  cc_auth_key_initialized : Bool
  cc_policy_info_initialized : Bool
  primary_admissions_cert_valid : Bool
  init_client_ssl_ok : Bool
  server_dispatch_ok : Bool
  deriving DecidableEq, Repr

/-- Oracle for one channel.read call: the int it returns and the string it
stores into out. -/
structure ChannelEnv where
  read_len : Int
  read_content : String
  deriving DecidableEq, Repr

def clientMsg : String := "Hi from your secret client\n"

def serverMsg : String := "Hi from your secret server\n"

/-- Embedding of client_application (islet_example_app.cc lines 71-98):
write one message, read once, close, then return false when the read failed
(negative length) or the content differs from serverMsg, true otherwise. -/
def client_application (chan : ChannelEnv) : Bool × List Event :=
  let t := [Event.chanWrite clientMsg]
  let n := chan.read_len
  let out := chan.read_content
  let t := t ++ [Event.chanRead]
  let t := t ++ [Event.chanClose]
  if n < 0 ∨ out ≠ serverMsg then (false, t) else (true, t)

/-- Embedding of server_application (islet_example_app.cc lines 101-120):
read once, write serverMsg, close.  The C function returns void: no failure
can be reported, whatever the read returned. -/
def server_application (chan : ChannelEnv) : List Event :=
  let t := [Event.chanRead]
  let _n := chan.read_len
  let _out := chan.read_content
  let t := t ++ [Event.chanWrite serverMsg]
  t ++ [Event.chanClose]

/-- Embedding of the operation dispatch of main (islet_example_app.cc lines
188-287), from "Carry out operation" to the done label: given the trace t0
accumulated so far it returns the value of ret and the full trace.  In the
final else branch (unknown operation) the C code prints an error message but
does not assign ret, so ret keeps its initial value 0. -/
def dispatch_operation (operation : String) (env : TrustEnv) (chan : ChannelEnv)
    (t0 : List Event) : Nat × List Event :=
  if operation = "cold-init" then
    let t := t0 ++ [Event.coldInit]
    if env.cold_init_ok = false then (1, t) else (0, t)
  else if operation = "get-certified" then
    let t := t0 ++ [Event.warmRestart]
    if env.warm_restart_ok = false then (1, t)
    else
      let t := t ++ [Event.certifyMe]
      if env.certify_me_ok = false then (1, t) else (0, t)
  else if operation = "run-app-as-client" then
    let t := t0 ++ [Event.warmRestart]
    if env.warm_restart_ok = false then (1, t)
    else
      let t := t ++ [Event.checkInitFlags]
      if env.cc_auth_key_initialized = false ∨ env.cc_policy_info_initialized = false then
        (1, t)
      else
        let t := t ++ [Event.checkAdmissions]
        if env.primary_admissions_cert_valid = false then (1, t)
        else
          let t := t ++ [Event.initClientSsl]
          if env.init_client_ssl_ok = false then (1, t)
          else
            let r := client_application chan
            let t := t ++ r.2
            if r.1 = false then (1, t) else (0, t)
  else if operation = "run-app-as-server" then
    let t := t0 ++ [Event.warmRestart]
    if env.warm_restart_ok = false then (1, t)
    else
      let t := t ++ [Event.checkAdmissions]
      if env.primary_admissions_cert_valid = false then (1, t)
      else
        let t := t ++ [Event.serverDispatch]
        if env.server_dispatch_ok = false then (1, t) else (0, t)
  else
    (0, t0)

/-- Embedding of main (islet_example_app.cc lines 124-296).  An empty
operation prints usage and returns 0 before the trust manager exists.  The
nullptr check and the init_policy_key and initialize_enclave failures return 1
directly, without passing through the done label, so no clearSensitiveData
event is emitted on those paths; every path that reaches the operation
dispatch falls through to done, which calls clear_sensitive_data. -/
def main (operation : String) (env : TrustEnv) (chan : ChannelEnv) :
    Nat × List Event :=
  if operation = "" then (0, [])
  else if env.trust_mgr_alloc_ok = false then (1, [])
  else if env.init_policy_key_ok = false then (1, [Event.initPolicyKey])
  else if env.initialize_enclave_ok = false then
    (1, [Event.initPolicyKey, Event.initializeEnclave])
  else
    let t0 := [Event.initPolicyKey, Event.initializeEnclave]
    let r := dispatch_operation operation env chan t0
    (r.1, r.2 ++ [Event.clearSensitiveData])

/-- The four recognized operation strings. -/
def knownOps : List String :=
  ["cold-init", "get-certified", "run-app-as-client", "run-app-as-server"]

/-- True on the events emitted only inside the operation dispatch: the
operation-specific lifecycle calls, the trust-flag reads and the channel
calls.  False on initPolicyKey, initializeEnclave and clearSensitiveData,
which are emitted outside the dispatch. -/
def opEvent : Event → Bool
  | Event.coldInit => true
  | Event.warmRestart => true
  | Event.certifyMe => true
  | Event.checkInitFlags => true
  | Event.checkAdmissions => true
  | Event.initClientSsl => true
  | Event.serverDispatch => true
  | Event.chanWrite _ => true
  | Event.chanRead => true
  | Event.chanClose => true
  | _ => false

/-- Oracle in which every external call succeeds and the channel read returns
serverMsg. -/
def envAllOk : TrustEnv :=
  ⟨true, true, true, true, true, true, true, true, true, true, true⟩

/-- Oracle in which init_policy_key fails and everything else succeeds. -/
def envPKFail : TrustEnv :=
  { envAllOk with init_policy_key_ok := false }

/-- Oracle in which warm_restart fails and everything else succeeds. -/
def envWarmFail : TrustEnv :=
  { envAllOk with warm_restart_ok := false }

/-- Oracle in which the primary admissions cert is not valid. -/
def envAdmFail : TrustEnv :=
  { envAllOk with primary_admissions_cert_valid := false }

/-- A channel whose single read returns serverMsg with its length. -/
def chan0 : ChannelEnv := ⟨27, serverMsg⟩

end IsletApp

namespace MeasInit

/-- One observable file-system effect of the measurement utility. -/
inductive MEvent where
  /-- the read(2) call on the opened input file inside read_file -/
  | readIn
  /-- the write(2) call on the opened output file inside write_file -/
  | writeOut (size : Nat) (data : List Nat)
  /-- free(file_contents) -/
  | freeBuf
  deriving DecidableEq, Repr

/-- Oracle for the stat/open/read outcomes on the input file. -/
structure FileInfo where
  /-- stat(2) returned 0 -/
  stat_ok : Bool
  /-- S_ISREG on st_mode -/
  is_reg : Bool
  st_size : Int
  /-- open(2) O_RDONLY succeeded -/
  open_ok : Bool
  /-- the value read(2) returns -/
  read_ret : Int
  deriving DecidableEq, Repr

/-- Embedding of write_file (measurement_init.cc lines 42-53): open with
O_CREAT|O_TRUNC, then one write of size bytes; the write event is emitted
exactly when the write call is reached (open succeeded). -/
def write_file (open_ok write_ok : Bool) (size : Nat) (data : List Nat) :
    Bool × List MEvent :=
  if open_ok = false then (false, [])
  else if write_ok = false then (false, [MEvent.writeOut size data])
  else (true, [MEvent.writeOut size data])

/-- Embedding of file_size (measurement_init.cc lines 55-63).  The C function
has return type int and both failure branches are written return false, which
converts to 0, so a missing or non-regular file yields 0. -/
def file_size (f : FileInfo) : Int :=
  if f.stat_ok = false then 0
  else if f.is_reg = false then 0
  else f.st_size

/-- Embedding of read_file (measurement_init.cc lines 65-83): re-stat the
file, reject non-regular files and files larger than the supplied buffer
size, open, read once, and return the number of bytes read (stored into
size by the C code). -/
def read_file (f : FileInfo) (size : Int) : Option Int × List MEvent :=
  if f.stat_ok = false then (none, [])
  else if f.is_reg = false then (none, [])
  else
    let bytes_in_file := f.st_size
    if bytes_in_file > size then (none, [])
    else if f.open_ok = false then (none, [])
    else (some f.read_ret, [MEvent.readIn])

/-- Oracle for one run of the measurement utility. -/
structure MeasEnv where
  test_measurement : Bool
  in_file : FileInfo
  /-- malloc(size) returned non-null -/
  malloc_ok : Bool
  /-- the EVP digest calls all succeeded -/
  digest_ok : Bool
  /-- the 32-byte digest written on the hashing path (opaque here) -/
  digest : List Nat
  /-- open(2) on the output file succeeded -/
  out_open_ok : Bool
  /-- write(2) on the output file returned nonnegative -/
  out_write_ok : Bool
  deriving DecidableEq, Repr

/-- Embedding of main (measurement_init.cc lines 102-159).  measurment_size
is 32; with test_measurement the buffer m is filled with m[i] = i and written
out before any access to the input file; otherwise the input file is sized,
read and hashed, and every failure after the malloc frees the buffer and
returns 1 before write_file is called on the output file. -/
def main (env : MeasEnv) : Nat × List MEvent :=
  if env.test_measurement = true then
    let m := List.range 32
    let r := write_file env.out_open_ok env.out_write_ok 32 m
    if r.1 = false then (1, r.2) else (0, r.2)
  else
    let size := file_size env.in_file
    if env.malloc_ok = false then (1, [])
    else
      let r := read_file env.in_file size
      match r.1 with
      | none => (1, r.2 ++ [MEvent.freeBuf])
      | some n =>
        let _ := n
        if env.digest_ok = false then (1, r.2 ++ [MEvent.freeBuf])
        else
          let w := write_file env.out_open_ok env.out_write_ok 32 env.digest
          if w.1 = false then (1, r.2 ++ w.2 ++ [MEvent.freeBuf])
          else (0, r.2 ++ w.2 ++ [MEvent.freeBuf])

/-- True exactly on writeOut events: a write(2) on the output file. -/
def isWriteOut : MEvent → Bool
  | MEvent.writeOut _ _ => true
  | _ => false

/-- A stat view of a present, regular, readable input file. -/
def fileOk : FileInfo := ⟨true, true, 5, true, 5⟩

/-- A stat view of a missing input file: stat(2) fails. -/
def fileMissing : FileInfo := ⟨false, false, 0, false, 0⟩

/-- Test-measurement run with all output-file calls succeeding. -/
def measTestEnv : MeasEnv :=
  ⟨true, fileOk, true, true, List.range 32, true, true⟩

/-- Hashing run on a missing input file. -/
def measNoInputEnv : MeasEnv :=
  ⟨false, fileMissing, true, true, List.range 32, true, true⟩

end MeasInit

namespace IsletApp

/-- Claim C1 (counterexample).  The claim says an unrecognized operation value
makes the process exit non-zero with no lifecycle calls made.  On the run with
operation "bogus-op" and every external call succeeding, the process exits 0,
and init_policy_key and initialize_enclave were both called. -/
theorem c1_unknown_operation_counterexample :
    (IsletApp.main "bogus-op" envAllOk chan0).1 = 0 ∧
    Event.initPolicyKey ∈ (IsletApp.main "bogus-op" envAllOk chan0).2 ∧
    Event.initializeEnclave ∈ (IsletApp.main "bogus-op" envAllOk chan0).2 := by
  decide

/-- Claim C1 (amended).  For every run with a non-empty operation value not in
the recognized set: the unknown-operation branch makes none of the
operation-dispatch calls (cold_init, warm_restart, certify_me, no trust-flag
read, no channel call), and when trust-manager construction, init_policy_key
and initialize_enclave succeed, the process prints the unknown-operation
diagnostic but exits 0, its trace being exactly init_policy_key,
initialize_enclave, clear_sensitive_data. -/
theorem c1_unknown_operation_amended (operation : String) (env : TrustEnv)
    (chan : ChannelEnv) (hne : operation ≠ "") (hunk : operation ∉ knownOps) :
    (IsletApp.main operation env chan).2.countP opEvent = 0 ∧
    (env.trust_mgr_alloc_ok = true → env.init_policy_key_ok = true →
      env.initialize_enclave_ok = true →
      IsletApp.main operation env chan =
        (0, [Event.initPolicyKey, Event.initializeEnclave,
             Event.clearSensitiveData])) := by
  simp only [knownOps, List.mem_cons, List.not_mem_nil, or_false, not_or] at hunk
  obtain ⟨hu1, hu2, hu3, hu4⟩ := hunk
  obtain ⟨a, b, c, d, e, f, g, h, i, j, k⟩ := env
  cases a <;> cases b <;> cases c <;>
    simp [IsletApp.main, dispatch_operation, hne, hu1, hu2, hu3, hu4, opEvent]

/-- Claim C1 (witness for the amended theorem). -/
theorem c1_unknown_operation_amended_witness :
    ("bogus-op" : String) ≠ "" ∧ ("bogus-op" : String) ∉ knownOps ∧
    ((IsletApp.main "bogus-op" envAllOk chan0).2.countP opEvent = 0 ∧
     (envAllOk.trust_mgr_alloc_ok = true → envAllOk.init_policy_key_ok = true →
      envAllOk.initialize_enclave_ok = true →
      IsletApp.main "bogus-op" envAllOk chan0 =
        (0, [Event.initPolicyKey, Event.initializeEnclave,
             Event.clearSensitiveData]))) :=
  ⟨by decide, by decide,
   c1_unknown_operation_amended "bogus-op" envAllOk chan0 (by decide) (by decide)⟩

/-- Claim C2 (counterexample).  The claim says clear_sensitive_data is invoked
on every exit path, including failures of init_policy_key.  On the run with
operation "cold-init" in which init_policy_key fails, the process exits 1 and
clear_sensitive_data is never called: the failure returns directly instead of
jumping to the done label. -/
theorem c2_clear_sensitive_counterexample :
    (IsletApp.main "cold-init" envPKFail chan0).1 = 1 ∧
    Event.clearSensitiveData ∉ (IsletApp.main "cold-init" envPKFail chan0).2 := by
  decide

/-- Claim C2 (amended).  clear_sensitive_data is invoked, as the last external
call before the process returns, on every exit path that reaches the operation
dispatch: every run with a non-empty operation in which trust-manager
construction, init_policy_key and initialize_enclave all succeed, whatever the
operation and the outcomes of the remaining calls.  (On the usage path and on
construction, init_policy_key or initialize_enclave failure the process exits
without invoking it, as the counterexample shows.) -/
theorem c2_clear_sensitive_amended (operation : String) (env : TrustEnv)
    (chan : ChannelEnv) (hne : operation ≠ "")
    (h1 : env.trust_mgr_alloc_ok = true) (h2 : env.init_policy_key_ok = true)
    (h3 : env.initialize_enclave_ok = true) :
    Event.clearSensitiveData ∈ (IsletApp.main operation env chan).2 ∧
    (IsletApp.main operation env chan).2.getLast? =
      some Event.clearSensitiveData := by
  simp [IsletApp.main, hne, h1, h2, h3]

/-- Claim C2 (witness for the amended theorem). -/
theorem c2_clear_sensitive_amended_witness :
    ("cold-init" : String) ≠ "" ∧ envAllOk.trust_mgr_alloc_ok = true ∧
    envAllOk.init_policy_key_ok = true ∧
    envAllOk.initialize_enclave_ok = true ∧
    (Event.clearSensitiveData ∈ (IsletApp.main "cold-init" envAllOk chan0).2 ∧
     (IsletApp.main "cold-init" envAllOk chan0).2.getLast? =
       some Event.clearSensitiveData) :=
  ⟨by decide, rfl, rfl, rfl,
   c2_clear_sensitive_amended "cold-init" envAllOk chan0 (by decide) rfl rfl rfl⟩

end IsletApp

namespace IsletApp

/-- Claim C3 (confirmed).  For the run-as-client operation (on a run that
reaches the dispatch), init_client_ssl is attempted exactly when warm_restart
succeeded and all three trust flags are true; whenever warm_restart succeeded
but some flag is false, the run exits 1 without any init_client_ssl call. -/
theorem c3_client_preconditions_gate_channel (env : TrustEnv) (chan : ChannelEnv)
    (h1 : env.trust_mgr_alloc_ok = true) (h2 : env.init_policy_key_ok = true)
    (h3 : env.initialize_enclave_ok = true) :
    ((Event.initClientSsl ∈ (IsletApp.main "run-app-as-client" env chan).2) ↔
      (env.warm_restart_ok = true ∧ env.cc_auth_key_initialized = true ∧
       env.cc_policy_info_initialized = true ∧
       env.primary_admissions_cert_valid = true)) ∧
    (env.warm_restart_ok = true →
      (env.cc_auth_key_initialized = false ∨
       env.cc_policy_info_initialized = false ∨
       env.primary_admissions_cert_valid = false) →
      (IsletApp.main "run-app-as-client" env chan).1 = 1 ∧
      Event.initClientSsl ∉ (IsletApp.main "run-app-as-client" env chan).2) := by
  obtain ⟨a, b, c, d, e, f, g, h, i, j, k⟩ := env
  simp only at h1 h2 h3
  subst h1 h2 h3
  cases e <;> cases g <;> cases h <;> cases i <;> cases j <;>
    simp [IsletApp.main, dispatch_operation, client_application,
      apply_ite Prod.snd, apply_ite Prod.fst]

/-- Claim C3 (witness): a run with warm_restart succeeding and the admissions
cert invalid. -/
theorem c3_client_preconditions_witness :
    envAdmFail.trust_mgr_alloc_ok = true ∧
    envAdmFail.init_policy_key_ok = true ∧
    envAdmFail.initialize_enclave_ok = true ∧
    (((Event.initClientSsl ∈ (IsletApp.main "run-app-as-client" envAdmFail chan0).2) ↔
      (envAdmFail.warm_restart_ok = true ∧
       envAdmFail.cc_auth_key_initialized = true ∧
       envAdmFail.cc_policy_info_initialized = true ∧
       envAdmFail.primary_admissions_cert_valid = true)) ∧
    (envAdmFail.warm_restart_ok = true →
      (envAdmFail.cc_auth_key_initialized = false ∨
       envAdmFail.cc_policy_info_initialized = false ∨
       envAdmFail.primary_admissions_cert_valid = false) →
      (IsletApp.main "run-app-as-client" envAdmFail chan0).1 = 1 ∧
      Event.initClientSsl ∉ (IsletApp.main "run-app-as-client" envAdmFail chan0).2)) :=
  ⟨rfl, rfl, rfl, c3_client_preconditions_gate_channel envAdmFail chan0 rfl rfl rfl⟩

/-- Claim C4 (confirmed).  The client session handler writes exactly one
message, reads exactly once, closes the channel exactly once — the same trace
on every path, success or failure — and returns failure exactly when the read
length is negative or the content read differs from serverMsg. -/
theorem c4_client_application_spec (chan : ChannelEnv) :
    (client_application chan).2 =
      [Event.chanWrite clientMsg, Event.chanRead, Event.chanClose] ∧
    (client_application chan).2.count Event.chanClose = 1 ∧
    (client_application chan).2.count Event.chanRead = 1 ∧
    ((client_application chan).1 = false ↔
      (chan.read_len < 0 ∨ chan.read_content ≠ serverMsg)) := by
  refine ⟨?_, ?_, ?_, ?_⟩
  · simp [client_application, apply_ite Prod.snd]
  · simp [client_application, apply_ite Prod.snd]
  · simp [client_application, apply_ite Prod.snd]
  · by_cases hn : chan.read_len < 0
    · simp [client_application, apply_ite Prod.fst, hn]
    · by_cases hc : chan.read_content = serverMsg <;>
        simp [client_application, apply_ite Prod.fst, hn, hc]

/-- Claim C5 (confirmed).  The server session handler performs exactly one
read, then one write of serverMsg, then one close, in that order, whatever the
read returned: its trace is the same for every channel oracle.  The C function
returns void, so no failure can be reported and the session outcome does not
depend on the content or length read. -/
theorem c5_server_application_spec (chan : ChannelEnv) :
    server_application chan =
      [Event.chanRead, Event.chanWrite serverMsg, Event.chanClose] ∧
    (∀ other : ChannelEnv, server_application chan = server_application other) :=
  ⟨rfl, fun _ => rfl⟩

end IsletApp

namespace IsletApp

/-- Claim C6 (confirmed).  For the get-certified operation (on a run that
reaches the dispatch), the trace is init_policy_key, initialize_enclave,
warm_restart, then certify_me exactly when warm_restart succeeded, then
clear_sensitive_data: certify_me is called if and only if warm_restart
returned success, always after it, and the run exits 0 exactly when both
warm_restart and certify_me succeed. -/
theorem c6_get_certified_sequencing (env : TrustEnv) (chan : ChannelEnv)
    (h1 : env.trust_mgr_alloc_ok = true) (h2 : env.init_policy_key_ok = true)
    (h3 : env.initialize_enclave_ok = true) :
    ((IsletApp.main "get-certified" env chan).2 =
      [Event.initPolicyKey, Event.initializeEnclave, Event.warmRestart] ++
      (if env.warm_restart_ok = true then [Event.certifyMe] else []) ++
      [Event.clearSensitiveData]) ∧
    ((Event.certifyMe ∈ (IsletApp.main "get-certified" env chan).2) ↔
      env.warm_restart_ok = true) ∧
    ((IsletApp.main "get-certified" env chan).1 = 0 ↔
      (env.warm_restart_ok = true ∧ env.certify_me_ok = true)) := by
  obtain ⟨a, b, c, d, e, f, g, h, i, j, k⟩ := env
  simp only at h1 h2 h3
  subst h1 h2 h3
  cases e <;> cases f <;>
    simp [IsletApp.main, dispatch_operation, apply_ite Prod.snd,
      apply_ite Prod.fst]

/-- Claim C6 (witness): the run in which warm_restart and certify_me both
succeed. -/
theorem c6_get_certified_witness :
    envAllOk.trust_mgr_alloc_ok = true ∧ envAllOk.init_policy_key_ok = true ∧
    envAllOk.initialize_enclave_ok = true ∧
    (((IsletApp.main "get-certified" envAllOk chan0).2 =
      [Event.initPolicyKey, Event.initializeEnclave, Event.warmRestart] ++
      (if envAllOk.warm_restart_ok = true then [Event.certifyMe] else []) ++
      [Event.clearSensitiveData]) ∧
    ((Event.certifyMe ∈ (IsletApp.main "get-certified" envAllOk chan0).2) ↔
      envAllOk.warm_restart_ok = true) ∧
    ((IsletApp.main "get-certified" envAllOk chan0).1 = 0 ↔
      (envAllOk.warm_restart_ok = true ∧ envAllOk.certify_me_ok = true))) :=
  ⟨rfl, rfl, rfl, c6_get_certified_sequencing envAllOk chan0 rfl rfl rfl⟩

/-- Claim C7 (confirmed).  For both run operations (on a run that reaches the
dispatch), warm_restart is the third external call, before any trust-flag
check or channel open/listen call; and if warm_restart fails the trace stops
at it — no flag is read, no channel is opened, no listen is started — and the
run exits 1. -/
theorem c7_warm_restart_precedes_channel (operation : String) (env : TrustEnv)
    (chan : ChannelEnv)
    (hop : operation = "run-app-as-client" ∨ operation = "run-app-as-server")
    (h1 : env.trust_mgr_alloc_ok = true) (h2 : env.init_policy_key_ok = true)
    (h3 : env.initialize_enclave_ok = true) :
    ((IsletApp.main operation env chan).2.take 3 =
      [Event.initPolicyKey, Event.initializeEnclave, Event.warmRestart]) ∧
    (env.warm_restart_ok = false →
      (IsletApp.main operation env chan).2 =
        [Event.initPolicyKey, Event.initializeEnclave, Event.warmRestart,
         Event.clearSensitiveData] ∧
      (IsletApp.main operation env chan).1 = 1) ∧
    ((Event.initClientSsl ∈ (IsletApp.main operation env chan).2 ∨
      Event.serverDispatch ∈ (IsletApp.main operation env chan).2) →
      env.warm_restart_ok = true) := by
  obtain ⟨a, b, c, d, e, f, g, h, i, j, k⟩ := env
  simp only at h1 h2 h3
  subst h1 h2 h3
  rcases hop with hop | hop <;> subst hop <;>
    cases e <;> cases g <;> cases h <;> cases i <;> cases j <;> cases k <;>
    simp [IsletApp.main, dispatch_operation, client_application,
      apply_ite Prod.snd, apply_ite Prod.fst]

/-- Claim C7 (witness): run-as-client with warm_restart failing. -/
theorem c7_warm_restart_witness :
    ("run-app-as-client" = "run-app-as-client" ∨
     "run-app-as-client" = "run-app-as-server") ∧
    envWarmFail.trust_mgr_alloc_ok = true ∧
    envWarmFail.init_policy_key_ok = true ∧
    envWarmFail.initialize_enclave_ok = true ∧
    (((IsletApp.main "run-app-as-client" envWarmFail chan0).2.take 3 =
      [Event.initPolicyKey, Event.initializeEnclave, Event.warmRestart]) ∧
    (envWarmFail.warm_restart_ok = false →
      (IsletApp.main "run-app-as-client" envWarmFail chan0).2 =
        [Event.initPolicyKey, Event.initializeEnclave, Event.warmRestart,
         Event.clearSensitiveData] ∧
      (IsletApp.main "run-app-as-client" envWarmFail chan0).1 = 1) ∧
    ((Event.initClientSsl ∈ (IsletApp.main "run-app-as-client" envWarmFail chan0).2 ∨
      Event.serverDispatch ∈ (IsletApp.main "run-app-as-client" envWarmFail chan0).2) →
      envWarmFail.warm_restart_ok = true)) :=
  ⟨Or.inl rfl, rfl, rfl, rfl,
   c7_warm_restart_precedes_channel "run-app-as-client" envWarmFail chan0
     (Or.inl rfl) rfl rfl rfl⟩

/-- Claim C8 (confirmed).  For the run-as-server operation (on a run that
reaches the dispatch) with warm_restart succeeding: the keys/policy trust-flag
check is never performed, only the admissions-cert flag is read; if that flag
is false the run exits 1 with no listen call; if it is true the listen call is
made, whatever the values of the keys-initialized and policy-initialized
flags. -/
theorem c8_server_precondition_admissions_only (env : TrustEnv)
    (chan : ChannelEnv)
    (h1 : env.trust_mgr_alloc_ok = true) (h2 : env.init_policy_key_ok = true)
    (h3 : env.initialize_enclave_ok = true)
    (hw : env.warm_restart_ok = true) :
    (Event.checkInitFlags ∉ (IsletApp.main "run-app-as-server" env chan).2) ∧
    (env.primary_admissions_cert_valid = false →
      (IsletApp.main "run-app-as-server" env chan).1 = 1 ∧
      Event.serverDispatch ∉ (IsletApp.main "run-app-as-server" env chan).2) ∧
    (env.primary_admissions_cert_valid = true →
      Event.serverDispatch ∈ (IsletApp.main "run-app-as-server" env chan).2) := by
  obtain ⟨a, b, c, d, e, f, g, h, i, j, k⟩ := env
  simp only at h1 h2 h3 hw
  subst h1 h2 h3 hw
  cases i <;> cases k <;>
    simp [IsletApp.main, dispatch_operation, apply_ite Prod.snd,
      apply_ite Prod.fst]

/-- Claim C8 (witness): run-as-server with the admissions cert invalid. -/
theorem c8_server_precondition_witness :
    envAdmFail.trust_mgr_alloc_ok = true ∧
    envAdmFail.init_policy_key_ok = true ∧
    envAdmFail.initialize_enclave_ok = true ∧
    envAdmFail.warm_restart_ok = true ∧
    ((Event.checkInitFlags ∉ (IsletApp.main "run-app-as-server" envAdmFail chan0).2) ∧
    (envAdmFail.primary_admissions_cert_valid = false →
      (IsletApp.main "run-app-as-server" envAdmFail chan0).1 = 1 ∧
      Event.serverDispatch ∉ (IsletApp.main "run-app-as-server" envAdmFail chan0).2) ∧
    (envAdmFail.primary_admissions_cert_valid = true →
      Event.serverDispatch ∈ (IsletApp.main "run-app-as-server" envAdmFail chan0).2)) :=
  ⟨rfl, rfl, rfl, rfl,
   c8_server_precondition_admissions_only envAdmFail chan0 rfl rfl rfl rfl⟩

end IsletApp

namespace MeasInit

/-- Claim C9 (confirmed).  With test_measurement set, the utility never
reads the input file; it makes exactly one output write, of exactly 32 bytes
whose byte at index i is i, whenever the output file could be opened; and it
exits 0 exactly when the open and the write both succeed, 1 otherwise. -/
theorem c9_test_measurement_spec (env : MeasEnv)
    (ht : env.test_measurement = true) :
    (MEvent.readIn ∉ (MeasInit.main env).2) ∧
    ((MeasInit.main env).1 = 0 ↔
      (env.out_open_ok = true ∧ env.out_write_ok = true)) ∧
    ((MeasInit.main env).1 = 0 ∨ (MeasInit.main env).1 = 1) ∧
    (env.out_open_ok = true →
      (MeasInit.main env).2 =
        [MEvent.writeOut 32
          [0, 1, 2, 3, 4, 5, 6, 7, 8, 9, 10, 11, 12, 13, 14, 15, 16, 17, 18,
           19, 20, 21, 22, 23, 24, 25, 26, 27, 28, 29, 30, 31]]) := by
  obtain ⟨tm, fi, mo, dg, dgv, oo, ow⟩ := env
  simp only at ht
  subst ht
  cases oo <;> cases ow <;>
    simp [MeasInit.main, write_file, apply_ite Prod.snd, apply_ite Prod.fst] <;>
    decide

/-- Claim C9 (witness): the test-measurement run with all output calls
succeeding. -/
theorem c9_test_measurement_witness :
    measTestEnv.test_measurement = true ∧
    ((MEvent.readIn ∉ (MeasInit.main measTestEnv).2) ∧
    ((MeasInit.main measTestEnv).1 = 0 ↔
      (measTestEnv.out_open_ok = true ∧ measTestEnv.out_write_ok = true)) ∧
    ((MeasInit.main measTestEnv).1 = 0 ∨ (MeasInit.main measTestEnv).1 = 1) ∧
    (measTestEnv.out_open_ok = true →
      (MeasInit.main measTestEnv).2 =
        [MEvent.writeOut 32
          [0, 1, 2, 3, 4, 5, 6, 7, 8, 9, 10, 11, 12, 13, 14, 15, 16, 17, 18,
           19, 20, 21, 22, 23, 24, 25, 26, 27, 28, 29, 30, 31]])) :=
  ⟨rfl, c9_test_measurement_spec measTestEnv rfl⟩

/-- Claim C10 (confirmed).  Without test_measurement, when the input file is
missing (stat fails) or is not a regular file: file_size returns 0 (the C
return false converts to int 0), read_file re-checks the file and fails, the
process exits 1, no write is ever made to the output file, and on the paths
where the malloc succeeded the buffer is freed before returning. -/
theorem c10_missing_input_no_output (env : MeasEnv)
    (ht : env.test_measurement = false)
    (hbad : env.in_file.stat_ok = false ∨ env.in_file.is_reg = false) :
    file_size env.in_file = 0 ∧
    (read_file env.in_file (file_size env.in_file)).1 = none ∧
    (MeasInit.main env).1 = 1 ∧
    (MeasInit.main env).2.countP isWriteOut = 0 ∧
    (env.malloc_ok = true → MEvent.freeBuf ∈ (MeasInit.main env).2) := by
  obtain ⟨tm, fi, mo, dg, dgv, oo, ow⟩ := env
  obtain ⟨s, r, sz, op, rr⟩ := fi
  simp only at ht hbad
  subst ht
  rcases hbad with hb | hb <;> subst hb <;>
    cases mo <;>
    simp [MeasInit.main, file_size, read_file, isWriteOut,
      apply_ite Prod.snd, apply_ite Prod.fst]

/-- Claim C10 (witness): the hashing run on a missing input file. -/
theorem c10_missing_input_witness :
    measNoInputEnv.test_measurement = false ∧
    (measNoInputEnv.in_file.stat_ok = false ∨
     measNoInputEnv.in_file.is_reg = false) ∧
    (file_size measNoInputEnv.in_file = 0 ∧
    (read_file measNoInputEnv.in_file (file_size measNoInputEnv.in_file)).1 = none ∧
    (MeasInit.main measNoInputEnv).1 = 1 ∧
    (MeasInit.main measNoInputEnv).2.countP isWriteOut = 0 ∧
    (measNoInputEnv.malloc_ok = true →
      MEvent.freeBuf ∈ (MeasInit.main measNoInputEnv).2)) :=
  ⟨rfl, Or.inl rfl,
   c10_missing_input_no_output measNoInputEnv rfl (Or.inl rfl)⟩

end MeasInit
